import Mathlib

/-!
Shallow embedding of `src/url_checker.py`, function `check_url`.

The single network call `requests.get(url, timeout=timeout,
allow_redirects=True, headers=headers)` is modelled by an explicit
outcome parameter `net : Except ReqExn Response`: the call either
returns a `Response` (redirect history, final URL, status code) or
raises an exception.  `ReqExn` has one constructor per category that
the ordered `except` clauses of `check_url` can distinguish: a
`requests.exceptions.Timeout` (including `ConnectTimeout`, which the
first clause catches), a `ConnectionError` that is not a `Timeout`, a
`TooManyRedirects`, any other `RequestException`, and any other
`Exception`.  `BaseException` signals that are not `Exception`
(`KeyboardInterrupt`, `SystemExit`) are external control flow, not
failures of the operation, and are outside the model.

`urlparse` is embedded from the CPython `urllib.parse` algorithm
(`urlsplit`) for the two fields the code reads, `scheme` and `netloc`:
removal of the unsafe bytes tab, CR and LF; scheme extraction (a colon
at index i > 0, an ASCII-alphabetic first character, the characters
between positions 1 and i all scheme characters, and the scheme
lowercased); netloc extraction after a leading `//` up to the first of
`/`, `?`, `#`; and the `Invalid IPv6 URL` error when exactly one of
`[`, `]` occurs in the netloc, which the surrounding
`except Exception` clause of `check_url` converts into an
`Invalid URL format:` result.  The `_checknetloc` check is a no-op on
ASCII netlocs and the finer bracketed-host validation of recent
CPython point releases is not modelled; no claim depends on either,
and all concrete inputs used below have ASCII, bracket-free netlocs.
-/

namespace UrlChecker

/-- Result of `urlparse` restricted to the fields `check_url` reads. -/
structure ParseResult where
  scheme : String
  netloc : String
deriving DecidableEq, Repr

/-- A `Response` as returned by `requests.get`: `history` is the list of
intermediate redirect responses (modelled by their URLs; `check_url` only
tests its truthiness), `url` the final resolved URL, `status_code` the
final status code. -/
structure Response where
  history : List String
  url : String
  status_code : Nat
deriving DecidableEq, Repr

/-- Exceptions `requests.get` can raise, one constructor per category the
ordered `except` clauses of `check_url` distinguish; `msg` is `str(e)`. -/
inductive ReqExn where
  | timeout (msg : String)
  | connectionError (msg : String)
  | tooManyRedirects (msg : String)
  | requestException (msg : String)
  | otherException (msg : String)
deriving DecidableEq, Repr

/-- `str(e)` of the exception. -/
def ReqExn.msg : ReqExn → String
  | .timeout m => m
  | .connectionError m => m
  | .tooManyRedirects m => m
  | .requestException m => m
  | .otherException m => m

/-- `isinstance(e, requests.exceptions.Timeout)`. -/
def ReqExn.isTimeout : ReqExn → Bool
  | .timeout _ => true
  | _ => false

/-- `isinstance(e, requests.exceptions.ConnectionError)` for an exception
not already caught by the `Timeout` clause. -/
def ReqExn.isConnectionError : ReqExn → Bool
  | .connectionError _ => true
  | _ => false

/-- `isinstance(e, requests.exceptions.TooManyRedirects)` for an exception
not already caught by an earlier clause. -/
def ReqExn.isTooManyRedirects : ReqExn → Bool
  | .tooManyRedirects _ => true
  | _ => false

/-- `isinstance(e, requests.exceptions.RequestException)`: `Timeout`,
`ConnectionError` and `TooManyRedirects` are subclasses of
`RequestException`. -/
def ReqExn.isRequestException : ReqExn → Bool
  | .otherException _ => false
  | _ => true

/-- `isinstance(e, Exception)`: true of every modelled exception. -/
def ReqExn.isException (_ : ReqExn) : Bool := true

/-- Characters allowed after the first character of a scheme
(`scheme_chars` of `urllib.parse`: ASCII letters, digits, `+`, `-`, `.`). -/
def schemeChar (c : Char) : Bool :=
  c.isAlpha || c.isDigit || c == '+' || c == '-' || c == '.'

/-- `urlsplit` first removes the unsafe bytes tab, CR, LF from the URL. -/
def removeUnsafeBytes (l : List Char) : List Char :=
  l.filter (fun c => !(c == '\t' || c == '\r' || c == '\n'))

/-- Scheme extraction of `urlsplit`: if a colon occurs at index `i > 0`,
the first character is ASCII-alphabetic and the characters before the
colon after the first are all scheme characters, the part before the
colon, lowercased, is the scheme and the rest follows the colon;
otherwise the scheme is empty and the whole input remains. -/
def splitScheme (u : List Char) : List Char × List Char :=
  match u.dropWhile (fun c => c != ':') with
  | [] => ([], u)
  | _ :: rest =>
    match u.takeWhile (fun c => c != ':') with
    | [] => ([], u)
    | c0 :: cs =>
      if c0.isAlpha && cs.all schemeChar then
        ((c0 :: cs).map Char.toLower, rest)
      else
        ([], u)

/-- A character that does not end the netloc (`_splitnetloc` scans up to
the first of `/`, `?`, `#`). -/
def netlocChar (c : Char) : Bool :=
  !(c == '/' || c == '?' || c == '#')

/-- `urlparse(url)` restricted to `scheme` and `netloc`; `Except.error`
models the `ValueError` raised for a netloc with exactly one of `[`, `]`. -/
def urlparse (url : String) : Except String ParseResult :=
  let u := removeUnsafeBytes url.data
  let (schemeL, rest) := splitScheme u
  if rest.take 2 = ['/', '/'] then
    let netlocL := (rest.drop 2).takeWhile netlocChar
    if (netlocL.contains '[') != (netlocL.contains ']') then
      Except.error "Invalid IPv6 URL"
    else
      Except.ok ⟨String.mk schemeL, String.mk netlocL⟩
  else
    Except.ok ⟨String.mk schemeL, ""⟩

/-- The first `try` block of `check_url` (lines 23 to 32): parse the URL
and run the three ordered syntax checks; `some` is an early return, `none`
means validation passed and the request is attempted. -/
def validate (url : String) : Option (Bool × String) :=
  match urlparse url with
  | Except.error e => some (false, "Invalid URL format: " ++ e)
  | Except.ok parsed =>
    if parsed.scheme = "" then
      some (false, "Invalid URL: Missing protocol (http:// or https://)")
    else if parsed.netloc = "" then
      some (false, "Invalid URL: Malformed URL format")
    else if parsed.scheme ≠ "http" ∧ parsed.scheme ≠ "https" then
      some (false, "Invalid URL: Unsupported protocol \x27" ++ parsed.scheme ++ "\x27")
    else
      none

/-- Header construction (lines 35 to 37). -/
def buildHeaders (use_browser_agent : Bool) : List (String × String) :=
  if use_browser_agent then
    [("User-Agent", "Mozilla/5.0 (Windows NT 10.0; Win64; x64) AppleWebKit/537.36 (KHTML, like Gecko) Chrome/120.0.0.0 Safari/537.36")]
  else
    []

/-- `pat in hay` on Python strings: `pat` occurs as a contiguous substring
of `hay`. -/
def isPrefixList : List Char → List Char → Bool
  | [], _ => true
  | _ :: _, [] => false
  | a :: as, b :: bs => a == b && isPrefixList as bs

def isSubList (pat : List Char) : List Char → Bool
  | [] => isPrefixList pat []
  | b :: rest => isPrefixList pat (b :: rest) || isSubList pat rest

def strContains (hay pat : String) : Bool :=
  isSubList pat.data hay.data

/-- Python `str.lower()`; the phrases `check_url` searches for are ASCII. -/
def strLower (s : String) : String :=
  String.mk (s.data.map Char.toLower)

/-- The `except requests.exceptions.ConnectionError` body (lines 59 to 66):
inspect `str(e).lower()` for name-resolution phrases, then for
`connection refused`, else a generic connection error. -/
def classifyConnectionError (msg : String) : Bool × String :=
  let error_msg := strLower msg
  if strContains error_msg "nodename nor servname provided"
      || strContains error_msg "name or service not known"
      || strContains error_msg "getaddrinfo failed" then
    (false, "DNS resolution failed: Unable to resolve domain name")
  else if strContains error_msg "connection refused" then
    (false, "Connection refused: Server is not accepting connections")
  else
    (false, "Network connection error: Unable to connect to server")

/-- The ordered `except` clauses of `check_url` (lines 56 to 75): the first
clause whose class matches handles the exception; `none` would mean no
clause matched and the exception propagates. -/
def handleRequestError (e : ReqExn) : Option (Bool × String) :=
  if e.isTimeout then
    some (false, "Connection timeout: Request took too long to respond")
  else if e.isConnectionError then
    some (classifyConnectionError e.msg)
  else if e.isTooManyRedirects then
    some (false, "Too many redirects")
  else if e.isRequestException then
    some (false, "Request error: " ++ e.msg)
  else if e.isException then
    some (false, "Unexpected error: " ++ e.msg)
  else
    none

/-- Classification of an obtained response (lines 44 to 54): a non-empty
redirect history first, then status 404, then any status in [400, 600),
else success. -/
def classifyResponse (r : Response) : Bool × String :=
  match r.history with
  | _ :: _ => (true, "Redirects to " ++ r.url)
  | [] =>
    if r.status_code = 404 then
      (false, "404 Not Found")
    else if 400 ≤ r.status_code ∧ r.status_code < 600 then
      (false, "HTTP " ++ toString r.status_code ++ " error")
    else
      (true, "URL is accessible")

/-- `check_url(url, timeout, use_browser_agent)` with the outcome of
`requests.get` passed explicitly; `timeout` and `use_browser_agent` only
shape the request, which the outcome parameter abstracts.  `none` models
an exception propagating to the caller. -/
def check_url (url : String) (timeout : Int) (use_browser_agent : Bool)
    (net : Except ReqExn Response) : Option (Bool × String) :=
  let _headers := buildHeaders use_browser_agent
  let _timeout := timeout
  match validate url with
  | some res => some res
  | none =>
    match net with
    | Except.ok response => some (classifyResponse response)
    | Except.error e => handleRequestError e

/-- Unfolding equation: a validation failure is returned unchanged,
whatever the network would have done. -/
theorem check_url_validate_some (url : String) (t : Int) (ua : Bool)
    (net : Except ReqExn Response) (res : Bool × String)
    (h : validate url = some res) : check_url url t ua net = some res := by
  simp only [check_url]
  rw [h]

/-- Unfolding equation: when validation passes and a response is obtained,
the response classification is returned. -/
theorem check_url_validate_none_ok (url : String) (t : Int) (ua : Bool)
    (r : Response) (h : validate url = none) :
    check_url url t ua (Except.ok r) = some (classifyResponse r) := by
  simp only [check_url]
  rw [h]

/-- Unfolding equation: when validation passes and the request raises, the
handler chain is consulted. -/
theorem check_url_validate_none_err (url : String) (t : Int) (ua : Bool)
    (e : ReqExn) (h : validate url = none) :
    check_url url t ua (Except.error e) = handleRequestError e := by
  simp only [check_url]
  rw [h]

theorem handleRequestError_timeout_eq (m : String) :
    handleRequestError (ReqExn.timeout m)
      = some (false, "Connection timeout: Request took too long to respond") := rfl

theorem handleRequestError_conn_eq (m : String) :
    handleRequestError (ReqExn.connectionError m)
      = some (classifyConnectionError m) := rfl

theorem handleRequestError_tooMany_eq (m : String) :
    handleRequestError (ReqExn.tooManyRedirects m)
      = some (false, "Too many redirects") := rfl

theorem handleRequestError_reqExc_eq (m : String) :
    handleRequestError (ReqExn.requestException m)
      = some (false, "Request error: " ++ m) := rfl

theorem handleRequestError_other_eq (m : String) :
    handleRequestError (ReqExn.otherException m)
      = some (false, "Unexpected error: " ++ m) := rfl

/-- Every early return of the validation stage carries `false`. -/
theorem validate_fst_false (url : String) (res : Bool × String)
    (h : validate url = some res) : res.1 = false := by
  unfold validate at h
  cases hp : urlparse url with
  | error e =>
    rw [hp] at h
    injection h with h1
    subst h1
    rfl
  | ok p =>
    rw [hp] at h
    repeat' split at h
    all_goals first
      | exact Option.noConfusion h
      | (injection h with h1; subst h1; rfl)

/-- The connection-error classifier always reports failure, with one of the
three fixed explanations. -/
theorem classifyConnectionError_exists (m : String) :
    ∃ s, classifyConnectionError m = (false, s) := by
  simp only [classifyConnectionError]
  split_ifs <;> exact ⟨_, rfl⟩

/-- C1: For every URL string, every timeout, every browser-agent flag and
every outcome of the request, `check_url` returns a result instead of
propagating an exception, and whenever the request raised (any transport
exception or unexpected exception) the result is a `(false, explanation)`
pair; together with the validation stage catching its own errors, the
operation is total over all string inputs. -/
theorem check_url_never_propagates :
    (∀ (url : String) (t : Int) (ua : Bool) (net : Except ReqExn Response),
      (check_url url t ua net).isSome = true) ∧
    (∀ (url : String) (t : Int) (ua : Bool) (e : ReqExn),
      ∃ s, check_url url t ua (Except.error e) = some (false, s)) := by
  constructor
  · intro url t ua net
    cases hv : validate url with
    | some res =>
      rw [check_url_validate_some url t ua net res hv]
      rfl
    | none =>
      cases net with
      | ok r =>
        rw [check_url_validate_none_ok url t ua r hv]
        rfl
      | error e =>
        rw [check_url_validate_none_err url t ua e hv]
        cases e with
        | timeout m => rw [handleRequestError_timeout_eq]; rfl
        | connectionError m => rw [handleRequestError_conn_eq]; rfl
        | tooManyRedirects m => rw [handleRequestError_tooMany_eq]; rfl
        | requestException m => rw [handleRequestError_reqExc_eq]; rfl
        | otherException m => rw [handleRequestError_other_eq]; rfl
  · intro url t ua e
    cases hv : validate url with
    | some res =>
      obtain ⟨b, s⟩ := res
      have hb : b = false := validate_fst_false url (b, s) hv
      subst hb
      exact ⟨s, check_url_validate_some url t ua _ _ hv⟩
    | none =>
      rw [check_url_validate_none_err url t ua e hv]
      cases e with
      | timeout m => exact ⟨_, handleRequestError_timeout_eq m⟩
      | connectionError m =>
        obtain ⟨s, hs⟩ := classifyConnectionError_exists m
        exact ⟨s, by rw [handleRequestError_conn_eq, hs]⟩
      | tooManyRedirects m => exact ⟨_, handleRequestError_tooMany_eq m⟩
      | requestException m => exact ⟨_, handleRequestError_reqExc_eq m⟩
      | otherException m => exact ⟨_, handleRequestError_other_eq m⟩

/-- C9: Calling `check_url` with the empty string returns the
missing-protocol failure whatever the network outcome would be (so no
request is issued), and the empty string parses successfully (empty scheme
and netloc), so the missing-scheme check, not the parse-failure branch,
fires. -/
theorem check_url_empty_input :
    ∀ (t : Int) (ua : Bool) (net : Except ReqExn Response),
      check_url "" t ua net
        = some (false, "Invalid URL: Missing protocol (http:// or https://)")
      ∧ urlparse "" = Except.ok ⟨"", ""⟩ := by
  intro t ua net
  exact ⟨check_url_validate_some "" t ua net _ rfl, rfl⟩

/-- C3: Whenever validation passes and the final response was reached
through at least one redirect, `check_url` reports success with the
`Redirects to` explanation, whatever the final status code is. -/
theorem check_url_redirect_priority :
    ∀ (url : String) (t : Int) (ua : Bool) (r : Response),
      validate url = none → r.history ≠ [] →
      check_url url t ua (Except.ok r)
        = some (true, "Redirects to " ++ r.url) := by
  intro url t ua r hv hh
  rw [check_url_validate_none_ok url t ua r hv]
  unfold classifyResponse
  cases hist : r.history with
  | nil => exact absurd hist hh
  | cons a l => rfl

/-- C3 witness: a redirect whose final response is a 404 is still reported
as success. -/
theorem check_url_redirect_priority_witness :
    check_url "http://a" 5 false
        (Except.ok ⟨["http://a"], "https://b/", 404⟩)
      = some (true, "Redirects to " ++ "https://b/") :=
  check_url_redirect_priority "http://a" 5 false
    ⟨["http://a"], "https://b/", 404⟩ rfl (by decide)

/-- Every result of the exception handlers carries `false`. -/
theorem handleRequestError_fst_false (e : ReqExn) (res : Bool × String)
    (h : handleRequestError e = some res) : res.1 = false := by
  cases e with
  | timeout m =>
    rw [handleRequestError_timeout_eq] at h
    injection h with h1; subst h1; rfl
  | connectionError m =>
    rw [handleRequestError_conn_eq] at h
    injection h with h1
    obtain ⟨s, hs⟩ := classifyConnectionError_exists m
    rw [hs] at h1; subst h1; rfl
  | tooManyRedirects m =>
    rw [handleRequestError_tooMany_eq] at h
    injection h with h1; subst h1; rfl
  | requestException m =>
    rw [handleRequestError_reqExc_eq] at h
    injection h with h1; subst h1; rfl
  | otherException m =>
    rw [handleRequestError_other_eq] at h
    injection h with h1; subst h1; rfl

/-- Unfolding equation for the redirect-free branch of the response
classification. -/
theorem classifyResponse_nil_eq (r : Response) (hh : r.history = []) :
    classifyResponse r =
      if r.status_code = 404 then (false, "404 Not Found")
      else if 400 ≤ r.status_code ∧ r.status_code < 600 then
        (false, "HTTP " ++ toString r.status_code ++ " error")
      else (true, "URL is accessible") := by
  unfold classifyResponse
  rw [hh]

/-- The response classification returns `true` exactly in the redirect
branch and the final catch-all branch. -/
theorem classifyResponse_true_cases (r : Response) (s : String)
    (h : classifyResponse r = (true, s)) :
    (r.history ≠ [] ∧ s = "Redirects to " ++ r.url)
    ∨ (r.history = [] ∧ ¬(400 ≤ r.status_code ∧ r.status_code < 600)
        ∧ s = "URL is accessible") := by
  cases hist : r.history with
  | cons a l =>
    unfold classifyResponse at h
    rw [hist] at h
    injection h with h1 h2
    exact Or.inl ⟨List.cons_ne_nil a l, h2.symm⟩
  | nil =>
    rw [classifyResponse_nil_eq r hist] at h
    split at h
    · exact Bool.noConfusion (congrArg Prod.fst h)
    · split at h
      next hr => exact Bool.noConfusion (congrArg Prod.fst h)
      next hr =>
        injection h with h1 h2
        exact Or.inr ⟨rfl, hr, h2.symm⟩

/-- C2 counterexample: a response reached without any redirect whose final
status code is 300, which is neither 2xx nor in [400, 600), is still
classified as success by `check_url`, so success is not restricted to 2xx
terminal responses and completed redirect chains. -/
theorem check_url_success_flag_counterexample :
    check_url "http://a" 5 false (Except.ok ⟨[], "http://a", 300⟩)
        = some (true, "URL is accessible")
      ∧ (Response.mk [] "http://a" 300).history = []
      ∧ ¬(200 ≤ (Response.mk [] "http://a" 300).status_code
            ∧ (Response.mk [] "http://a" 300).status_code < 300) :=
  ⟨rfl, rfl, by decide⟩

/-- C2 amended: the success flag is true only when a response was actually
obtained and either at least one redirect was followed or the final status
code lies outside [400, 600); every raised exception and every validation
failure yields false, but a redirect-free response whose status is outside
both 2xx and [400, 600), such as 300, is also reported as success. -/
theorem check_url_success_conditions :
    ∀ (url : String) (t : Int) (ua : Bool) (net : Except ReqExn Response)
      (s : String),
      check_url url t ua net = some (true, s) →
      ∃ r, net = Except.ok r
        ∧ (r.history ≠ [] ∨ ¬(400 ≤ r.status_code ∧ r.status_code < 600)) := by
  intro url t ua net s h
  cases hv : validate url with
  | some res =>
    rw [check_url_validate_some url t ua net res hv] at h
    injection h with h1
    have hf := validate_fst_false url res hv
    rw [h1] at hf
    exact Bool.noConfusion hf
  | none =>
    cases net with
    | error e =>
      rw [check_url_validate_none_err url t ua e hv] at h
      have hf := handleRequestError_fst_false e (true, s) h
      exact Bool.noConfusion hf
    | ok r =>
      rw [check_url_validate_none_ok url t ua r hv] at h
      injection h with h1
      rcases classifyResponse_true_cases r s h1 with ⟨hne, _⟩ | ⟨_, hr, _⟩
      · exact ⟨r, rfl, Or.inl hne⟩
      · exact ⟨r, rfl, Or.inr hr⟩

/-- C2 amended, witness: instantiated at a followed redirect ending in a
404. -/
theorem check_url_success_conditions_witness :
    ∃ r, (Except.ok ⟨["http://a"], "https://b/", 404⟩ : Except ReqExn Response)
        = Except.ok r
      ∧ (r.history ≠ [] ∨ ¬(400 ≤ r.status_code ∧ r.status_code < 600)) :=
  check_url_success_conditions "http://a" 5 false
    (Except.ok ⟨["http://a"], "https://b/", 404⟩)
    ("Redirects to " ++ "https://b/") rfl

/-- C4: Before any network outcome can matter, validation applies four
ordered short-circuiting checks — parse failure, missing scheme, missing
authority, unsupported scheme — each with its fixed message; the returned
result is the same for every network outcome. -/
theorem check_url_validation_order :
    ∀ (url : String) (t : Int) (ua : Bool) (net : Except ReqExn Response),
      (∀ e, urlparse url = Except.error e →
        check_url url t ua net = some (false, "Invalid URL format: " ++ e))
      ∧ (∀ p, urlparse url = Except.ok p → p.scheme = "" →
        check_url url t ua net
          = some (false, "Invalid URL: Missing protocol (http:// or https://)"))
      ∧ (∀ p, urlparse url = Except.ok p → p.scheme ≠ "" → p.netloc = "" →
        check_url url t ua net = some (false, "Invalid URL: Malformed URL format"))
      ∧ (∀ p, urlparse url = Except.ok p → p.scheme ≠ "" → p.netloc ≠ "" →
        p.scheme ≠ "http" → p.scheme ≠ "https" →
        check_url url t ua net
          = some (false,
              "Invalid URL: Unsupported protocol \x27" ++ p.scheme ++ "\x27")) := by
  intro url t ua net
  refine ⟨?_, ?_, ?_, ?_⟩
  · intro e he
    apply check_url_validate_some
    unfold validate
    rw [he]
  · intro p hp hs
    apply check_url_validate_some
    unfold validate
    rw [hp]
    dsimp only
    rw [if_pos hs]
  · intro p hp hs hn
    apply check_url_validate_some
    unfold validate
    rw [hp]
    dsimp only
    rw [if_neg hs, if_pos hn]
  · intro p hp hs hn h1 h2
    apply check_url_validate_some
    unfold validate
    rw [hp]
    dsimp only
    rw [if_neg hs, if_neg hn, if_pos (And.intro h1 h2)]

/-- C4 witness: the fourth check fires on `ftp://host`. -/
theorem check_url_validation_order_witness :
    check_url "ftp://host" 5 false (Except.error (ReqExn.timeout "t"))
      = some (false,
          "Invalid URL: Unsupported protocol \x27" ++ "ftp" ++ "\x27") :=
  (check_url_validation_order "ftp://host" 5 false
      (Except.error (ReqExn.timeout "t"))).2.2.2 ⟨"ftp", "host"⟩ rfl
    (by decide) (by decide) (by decide) (by decide)

/-- C5: For a response obtained without following any redirect: status 404
gives the fixed not-found failure; otherwise any status in [400, 600)
gives the `HTTP <code> error` failure; otherwise the result is success, in
that order. -/
theorem check_url_status_classification :
    ∀ (url : String) (t : Int) (ua : Bool) (r : Response),
      validate url = none → r.history = [] →
      (r.status_code = 404 →
        check_url url t ua (Except.ok r) = some (false, "404 Not Found"))
      ∧ (r.status_code ≠ 404 → 400 ≤ r.status_code → r.status_code < 600 →
        check_url url t ua (Except.ok r)
          = some (false, "HTTP " ++ toString r.status_code ++ " error"))
      ∧ (¬(400 ≤ r.status_code ∧ r.status_code < 600) →
        check_url url t ua (Except.ok r) = some (true, "URL is accessible")) := by
  intro url t ua r hv hh
  rw [check_url_validate_none_ok url t ua r hv, classifyResponse_nil_eq r hh]
  refine ⟨?_, ?_, ?_⟩
  · intro h404
    rw [if_pos h404]
  · intro h404 hlo hhi
    rw [if_neg h404, if_pos (And.intro hlo hhi)]
  · intro hr
    have h404 : ¬(r.status_code = 404) := by
      intro hEq
      apply hr
      rw [hEq]
      exact ⟨by decide, by decide⟩
    rw [if_neg h404, if_neg hr]

/-- C5 witness: a redirect-free 404 response yields the not-found
failure. -/
theorem check_url_status_classification_witness :
    check_url "http://a" 5 false (Except.ok ⟨[], "http://a", 404⟩)
      = some (false, "404 Not Found") :=
  (check_url_status_classification "http://a" 5 false
      ⟨[], "http://a", 404⟩ rfl rfl).1 rfl

/-- C6: When the request fails with a connection-level error, the
lowercased exception text determines the explanation: any of the three
name-resolution phrases gives the DNS failure; otherwise the refused
phrase gives the connection-refused failure; otherwise the generic
connection failure is returned. -/
theorem check_url_connection_error_text :
    ∀ (url : String) (t : Int) (ua : Bool) (msg : String),
      validate url = none →
      ((strContains (strLower msg) "nodename nor servname provided" = true
          ∨ strContains (strLower msg) "name or service not known" = true
          ∨ strContains (strLower msg) "getaddrinfo failed" = true) →
        check_url url t ua (Except.error (ReqExn.connectionError msg))
          = some (false, "DNS resolution failed: Unable to resolve domain name"))
      ∧ (strContains (strLower msg) "nodename nor servname provided" = false →
        strContains (strLower msg) "name or service not known" = false →
        strContains (strLower msg) "getaddrinfo failed" = false →
        strContains (strLower msg) "connection refused" = true →
        check_url url t ua (Except.error (ReqExn.connectionError msg))
          = some (false, "Connection refused: Server is not accepting connections"))
      ∧ (strContains (strLower msg) "nodename nor servname provided" = false →
        strContains (strLower msg) "name or service not known" = false →
        strContains (strLower msg) "getaddrinfo failed" = false →
        strContains (strLower msg) "connection refused" = false →
        check_url url t ua (Except.error (ReqExn.connectionError msg))
          = some (false, "Network connection error: Unable to connect to server")) := by
  intro url t ua msg hv
  rw [check_url_validate_none_err url t ua (ReqExn.connectionError msg) hv,
    handleRequestError_conn_eq]
  refine ⟨?_, ?_, ?_⟩
  · intro hd
    rcases hd with h | h | h <;> simp [classifyConnectionError, h]
  · intro h1 h2 h3 h4
    simp [classifyConnectionError, h1, h2, h3, h4]
  · intro h1 h2 h3 h4
    simp [classifyConnectionError, h1, h2, h3, h4]

/-- C6 witness: a DNS-style message is classified as DNS failure. -/
theorem check_url_connection_error_text_witness :
    check_url "http://a" 5 false
        (Except.error (ReqExn.connectionError "getaddrinfo failed"))
      = some (false, "DNS resolution failed: Unable to resolve domain name") :=
  (check_url_connection_error_text "http://a" 5 false "getaddrinfo failed"
      rfl).1 (Or.inr (Or.inr rfl))

/-- C7: A request that fails with a timeout yields exactly the fixed
timeout failure, and one that exceeds the redirect limit yields exactly
the fixed too-many-redirects failure. -/
theorem check_url_timeout_and_redirect_limit :
    ∀ (url : String) (t : Int) (ua : Bool) (msg : String),
      validate url = none →
      check_url url t ua (Except.error (ReqExn.timeout msg))
        = some (false, "Connection timeout: Request took too long to respond")
      ∧ check_url url t ua (Except.error (ReqExn.tooManyRedirects msg))
        = some (false, "Too many redirects") := by
  intro url t ua msg hv
  constructor
  · rw [check_url_validate_none_err url t ua (ReqExn.timeout msg) hv,
      handleRequestError_timeout_eq]
  · rw [check_url_validate_none_err url t ua (ReqExn.tooManyRedirects msg) hv,
      handleRequestError_tooMany_eq]

/-- C7 witness: instantiated at a validated URL. -/
theorem check_url_timeout_and_redirect_limit_witness :
    check_url "http://a" 5 false (Except.error (ReqExn.timeout ""))
        = some (false, "Connection timeout: Request took too long to respond")
      ∧ check_url "http://a" 5 false (Except.error (ReqExn.tooManyRedirects ""))
        = some (false, "Too many redirects") :=
  check_url_timeout_and_redirect_limit "http://a" 5 false "" rfl

/-- A string whose left append part is non-empty is non-empty. -/
theorem append_left_ne_empty (a b : String) (ha : a ≠ "") : a ++ b ≠ "" := by
  intro hab
  apply ha
  apply String.ext
  have hd : (a ++ b).data = ("" : String).data := by rw [hab]
  rw [String.data_append] at hd
  have hd2 : a.data ++ b.data = [] := hd
  exact (List.append_eq_nil.mp hd2).1

/-- Every early return of the validation stage carries a non-empty
explanation. -/
theorem validate_snd_ne (url : String) (res : Bool × String)
    (h : validate url = some res) : res.2 ≠ "" := by
  unfold validate at h
  cases hp : urlparse url with
  | error e =>
    rw [hp] at h
    injection h with h1
    subst h1
    exact append_left_ne_empty _ _ (by decide)
  | ok p =>
    rw [hp] at h
    repeat' split at h
    all_goals first
      | exact Option.noConfusion h
      | (injection h with h1; subst h1
         first
           | decide
           | exact append_left_ne_empty _ _ (by decide)
           | exact append_left_ne_empty _ _ (append_left_ne_empty _ _ (by decide)))

/-- The connection-error classifier always yields a non-empty
explanation. -/
theorem classifyConnectionError_snd_ne (m : String) :
    (classifyConnectionError m).2 ≠ "" := by
  simp only [classifyConnectionError]
  split_ifs <;> decide

/-- Every handled exception yields a non-empty explanation. -/
theorem handleRequestError_snd_ne (e : ReqExn) (res : Bool × String)
    (h : handleRequestError e = some res) : res.2 ≠ "" := by
  cases e with
  | timeout m =>
    rw [handleRequestError_timeout_eq] at h
    injection h with h1; subst h1; decide
  | connectionError m =>
    rw [handleRequestError_conn_eq] at h
    injection h with h1
    subst h1
    exact classifyConnectionError_snd_ne m
  | tooManyRedirects m =>
    rw [handleRequestError_tooMany_eq] at h
    injection h with h1; subst h1; decide
  | requestException m =>
    rw [handleRequestError_reqExc_eq] at h
    injection h with h1; subst h1
    exact append_left_ne_empty _ _ (by decide)
  | otherException m =>
    rw [handleRequestError_other_eq] at h
    injection h with h1; subst h1
    exact append_left_ne_empty _ _ (by decide)

/-- Every response classification yields a non-empty explanation. -/
theorem classifyResponse_snd_ne (r : Response) :
    (classifyResponse r).2 ≠ "" := by
  unfold classifyResponse
  cases r.history with
  | cons a l => exact append_left_ne_empty _ _ (by decide)
  | nil =>
    dsimp only
    split_ifs
    · decide
    · exact append_left_ne_empty _ _ (append_left_ne_empty _ _ (by decide))
    · decide

/-- C8: Whatever branch of `check_url` produces the result — validation
failure, response classification, redirect, or any exception handler —
the explanation string is non-empty. -/
theorem check_url_explanation_nonempty :
    ∀ (url : String) (t : Int) (ua : Bool) (net : Except ReqExn Response)
      (b : Bool) (s : String),
      check_url url t ua net = some (b, s) → s ≠ "" := by
  intro url t ua net b s h
  cases hv : validate url with
  | some res =>
    rw [check_url_validate_some url t ua net res hv] at h
    injection h with h1
    have hs := validate_snd_ne url res hv
    rw [h1] at hs
    exact hs
  | none =>
    cases net with
    | ok r =>
      rw [check_url_validate_none_ok url t ua r hv] at h
      injection h with h1
      have hs := classifyResponse_snd_ne r
      rw [h1] at hs
      exact hs
    | error e =>
      rw [check_url_validate_none_err url t ua e hv] at h
      exact handleRequestError_snd_ne e (b, s) h

/-- C8 witness: instantiated at the empty URL. -/
theorem check_url_explanation_nonempty_witness :
    ("Invalid URL: Missing protocol (http:// or https://)" : String) ≠ "" :=
  check_url_explanation_nonempty "" 5 false (Except.ok ⟨[], "", 200⟩) false
    "Invalid URL: Missing protocol (http:// or https://)" rfl

/-- C10: Every successful result of `check_url` carries either exactly the
accessible explanation or an explanation beginning with `Redirects to`;
no other branch returns true. -/
theorem check_url_true_explanations :
    ∀ (url : String) (t : Int) (ua : Bool) (net : Except ReqExn Response)
      (s : String),
      check_url url t ua net = some (true, s) →
      s = "URL is accessible" ∨ ∃ u, s = "Redirects to " ++ u := by
  intro url t ua net s h
  cases hv : validate url with
  | some res =>
    rw [check_url_validate_some url t ua net res hv] at h
    injection h with h1
    have hf := validate_fst_false url res hv
    rw [h1] at hf
    exact Bool.noConfusion hf
  | none =>
    cases net with
    | error e =>
      rw [check_url_validate_none_err url t ua e hv] at h
      exact Bool.noConfusion (handleRequestError_fst_false e (true, s) h)
    | ok r =>
      rw [check_url_validate_none_ok url t ua r hv] at h
      injection h with h1
      rcases classifyResponse_true_cases r s h1 with ⟨_, hs⟩ | ⟨_, _, hs⟩
      · exact Or.inr ⟨r.url, hs⟩
      · exact Or.inl hs

/-- C10 witness: a plain 200 response gives the accessible explanation. -/
theorem check_url_true_explanations_witness :
    ("URL is accessible" : String) = "URL is accessible"
      ∨ ∃ u, ("URL is accessible" : String) = "Redirects to " ++ u :=
  check_url_true_explanations "http://a" 5 false (Except.ok ⟨[], "x", 200⟩)
    "URL is accessible" rfl

end UrlChecker
